import Mathlib

/-!
Verification of the resilient metrics-bridging sidecar
(`agent/helm/image/custom_metics_exporter.py`).

The Python module is shallowly embedded: the process-wide mutable globals
become an explicit state record threaded through the functions, wall-clock
reads (`time.time()`) become explicit `Nat` arguments supplied by an
environment, the upstream HTTP call becomes an `Except` value supplied per
attempt, and raised exceptions become explicit error results.  Every
definition mirrors the corresponding Python function line by line.
-/

/-- The three circuit-breaker states, the string constants
`'CLOSED' / 'OPEN' / 'HALF_OPEN'` of the Python class. -/
inductive CBStatus where
  | CLOSED
  | OPEN
  | HALF_OPEN
deriving DecidableEq, Repr

/-- The mutable attributes of the Python `CircuitBreaker` object.
`last_failure_time` is `None` until the first failure, hence `Option Nat`. -/
structure CBState where
  failure_threshold : Nat
  recovery_timeout : Nat
  failure_count : Nat
  last_failure_time : Option Nat
  state : CBStatus
deriving DecidableEq, Repr

/-- `CircuitBreaker.__init__` with its default arguments
`failure_threshold=5, recovery_timeout=30`. -/
def CBState.init : CBState :=
  { failure_threshold := 5
    recovery_timeout := 30
    failure_count := 0
    last_failure_time := none
    state := .CLOSED }

/-- Outcome of `CircuitBreaker.call`: the returned value, the
`Exception("Circuit breaker is OPEN")` raised by the breaker itself, the
re-raised exception of the wrapped operation, or the `TypeError` Python
would raise on `time.time() - None` (OPEN state with no recorded failure
time — unreachable from the initial state). -/
inductive CBResult (α : Type) where
  | ok (a : α)
  | circuitOpen
  | opError
  | crash
deriving DecidableEq, Repr

/-- The `try:` body of `CircuitBreaker.call`: run the wrapped operation on
the (possibly just half-opened) state.  Returns the new breaker state, the
call result, and how many times the wrapped operation was invoked. -/
def CBState.runOp {α : Type} (s : CBState) (now : Nat) (op : Except Unit α) :
    CBState × CBResult α × Nat :=
  match op with
  | .ok a =>
      if s.state = .HALF_OPEN then
        ({ s with state := .CLOSED, failure_count := 0 }, .ok a, 1)
      else
        (s, .ok a, 1)
  | .error _ =>
      let fc := s.failure_count + 1
      let s1 := { s with failure_count := fc, last_failure_time := some now }
      if s1.failure_threshold ≤ fc then
        ({ s1 with state := .OPEN }, .opError, 1)
      else
        (s1, .opError, 1)

/-- `CircuitBreaker.call(func)`.  `now` is the value `time.time()` reads
during this call; `op` is the outcome the wrapped operation would produce
if invoked. -/
def CBState.call {α : Type} (s : CBState) (now : Nat) (op : Except Unit α) :
    CBState × CBResult α × Nat :=
  match s.state with
  | .OPEN =>
      match s.last_failure_time with
      | none => (s, .crash, 0)
      | some t =>
          if s.recovery_timeout < now - t then
            CBState.runOp { s with state := .HALF_OPEN } now op
          else
            (s, .circuitOpen, 0)
  | _ => CBState.runOp s now op

/-- Reachability invariant of the breaker: whenever the state is `OPEN`,
the failure count has reached the threshold and a failure time is
recorded. -/
def CBInv (s : CBState) : Prop :=
  s.state = .OPEN → s.failure_threshold ≤ s.failure_count ∧ s.last_failure_time.isSome

/-- The raw metrics document returned by the upstream
`/actuator/info` endpoint: a JSON object in which every field the exporter
reads is optional. -/
structure BuildInfo where
  version : Option String
  commitHash : Option String
  buildTimestamp : Option Nat
deriving DecidableEq, Repr

structure MetricsDoc where
  buildInfo : Option BuildInfo
  agentStatus : Option String
  activeTaskCount : Option Nat
  activeRequestCount : Option Nat
  openSessionsCount : Option Nat
deriving DecidableEq, Repr

/-- The empty JSON document `{}`. -/
def MetricsDoc.empty : MetricsDoc :=
  { buildInfo := none
    agentStatus := none
    activeTaskCount := none
    activeRequestCount := none
    openSessionsCount := none }

/-- The module-level configuration constants read from the environment:
`MAX_RETRY_ATTEMPTS` (default 30), `RETRY_DELAY` (default 5), and the
module constant `metrics_cache_ttl = 30`. -/
structure Config where
  MAX_RETRY_ATTEMPTS : Nat
  RETRY_DELAY : Nat
  metrics_cache_ttl : Nat
deriving DecidableEq, Repr

/-- The default configuration (no environment overrides). -/
def Config.default : Config :=
  { MAX_RETRY_ATTEMPTS := 30, RETRY_DELAY := 5, metrics_cache_ttl := 30 }

/-- The process-wide mutable globals read and written by `fetch_metrics`:
the shared circuit breaker, the `agent_draining` flag, the metrics cache
(`last_successful_metrics` / `last_metrics_time`), and the
`healthcheck_failures['fetch']` counter. -/
structure ExpState where
  cb : CBState
  agent_draining : Bool
  last_successful_metrics : Option MetricsDoc
  last_metrics_time : Option Nat
  fetch_failures : Nat
deriving DecidableEq, Repr

/-- What the outside world does during one iteration of the retry loop:
whether `shutdown_event.is_set()` holds at the top of the iteration, the
wall-clock value `time.time()` reads during the iteration, the outcome the
upstream HTTP GET would produce if invoked, and whether the shutdown latch
fires during `shutdown_event.wait(retry_delay)`. -/
structure AttemptEnv where
  shutdownAtStart : Bool
  now : Nat
  upstream : Except Unit MetricsDoc
  shutdownDuringWait : Bool

/-- The environment of one `fetch_metrics` call: the wall clock at the
cache-freshness check, then one `AttemptEnv` per loop iteration. -/
structure FetchEnv where
  now0 : Nat
  attempt : Nat → AttemptEnv

/-- The exceptions `fetch_metrics` can raise (or re-raise). -/
inductive FetchErr where
  | shutdown
  | shutdownDuringWait
  | circuitOpen
  | upstreamError
  | cbCrash
deriving DecidableEq, Repr

/-- `e` is a failure of the fetch attempt itself (as opposed to a
shutdown abort): the kind of exception the final `raise` re-raises. -/
def FetchErr.isFetchFailure : FetchErr → Prop
  | .circuitOpen => True
  | .upstreamError => True
  | .cbCrash => True
  | _ => False

/-- How a `fetch_metrics` call ends: `doc` for a `return` of a document,
`noneValue` for falling off the end of the `for` loop (Python returns
`None`; only reachable when the retry budget is 0), `err` for a raised
exception. -/
inductive FetchResult where
  | doc (d : MetricsDoc)
  | noneValue
  | err (e : FetchErr)
deriving DecidableEq, Repr

/-- Everything observable about one `fetch_metrics` call: the final global
state, the outcome, the number of loop iterations that reached the
circuit-breaker call, the number of times the upstream HTTP GET was
actually invoked, and the list of inter-attempt delays slept. -/
structure FetchOutcome where
  state : ExpState
  result : FetchResult
  cbAttempts : Nat
  opInvocations : Nat
  waits : List Nat
deriving Repr

/-- Maps the failure result of a circuit-breaker call to the exception
`fetch_metrics` observes. -/
def errOfCB {α : Type} : CBResult α → FetchErr
  | .ok _ => .upstreamError
  | .circuitOpen => .circuitOpen
  | .opError => .upstreamError
  | .crash => .cbCrash

/-- The `for attempt in range(max_attempts)` loop of `fetch_metrics`.
`i` is the current value of `attempt`; `remaining` is the number of loop
iterations still to run (`max_attempts - attempt`), so `remaining = 1`
means this is the last iteration (`attempt = max_attempts - 1`). -/
def fetchLoop (retry_delay : Nat) (env : Nat → AttemptEnv) :
    Nat → Nat → ExpState → FetchOutcome
  | _, 0, st => ⟨st, .noneValue, 0, 0, []⟩
  | i, remaining + 1, st =>
      let a := env i
      if a.shutdownAtStart then
        ⟨st, .err .shutdown, 0, 0, []⟩
      else
        match st.cb.call a.now a.upstream with
        | (cb1, .ok d, inv) =>
            ⟨{ st with cb := cb1
                       last_successful_metrics := some d
                       last_metrics_time := some a.now
                       fetch_failures := 0 },
              .doc d, 1, inv, []⟩
        | (cb1, r, inv) =>
            let st2 := { st with cb := cb1, fetch_failures := st.fetch_failures + 1 }
            match remaining with
            | 0 =>
                match st2.last_successful_metrics with
                | some cached =>
                    if 3 ≤ st2.fetch_failures then
                      ⟨st2, .doc cached, 1, inv, []⟩
                    else
                      ⟨st2, .err (errOfCB r), 1, inv, []⟩
                | none => ⟨st2, .err (errOfCB r), 1, inv, []⟩
            | r' + 1 =>
                if a.shutdownDuringWait then
                  ⟨st2, .err .shutdownDuringWait, 1, inv, []⟩
                else
                  let rest := fetchLoop retry_delay env (i + 1) (r' + 1) st2
                  ⟨rest.state, rest.result, rest.cbAttempts + 1,
                    rest.opInvocations + inv, retry_delay :: rest.waits⟩

/-- The retry budget `3 if agent_draining else MAX_RETRY_ATTEMPTS`. -/
def effMaxAttempts (cfg : Config) (st : ExpState) : Nat :=
  if st.agent_draining then 3 else cfg.MAX_RETRY_ATTEMPTS

/-- The inter-attempt delay `1 if agent_draining else RETRY_DELAY`. -/
def effRetryDelay (cfg : Config) (st : ExpState) : Nat :=
  if st.agent_draining then 1 else cfg.RETRY_DELAY

/-- `fetch_metrics()`. -/
def fetch_metrics (cfg : Config) (env : FetchEnv) (st : ExpState) : FetchOutcome :=
  let max_attempts := effMaxAttempts cfg st
  let retry_delay := effRetryDelay cfg st
  match st.last_successful_metrics, st.last_metrics_time with
  | some cached, some t =>
      if env.now0 - t < cfg.metrics_cache_ttl then
        ⟨st, .doc cached, 0, 0, []⟩
      else
        fetchLoop retry_delay env.attempt 0 max_attempts st
  | _, _ => fetchLoop retry_delay env.attempt 0 max_attempts st

/-- The local `agent_status_value = 1 if agent_status == "RUNNING" else 0`
of `convert_to_prometheus` (with `agent_status = metrics.get("agentStatus", "")`). -/
def agent_status_value (metrics : MetricsDoc) : Nat :=
  if metrics.agentStatus.getD "" = "RUNNING" then 1 else 0

/-- `convert_to_prometheus(metrics)`. -/
def convert_to_prometheus (metrics : MetricsDoc) : String :=
  let build_info := metrics.buildInfo.getD ⟨none, none, none⟩
  let version := build_info.version.getD "unknown"
  let commit_hash := build_info.commitHash.getD "unknown"
  let build_timestamp := build_info.buildTimestamp.getD 0
  let active_task_count := metrics.activeTaskCount.getD 0
  let active_request_count := metrics.activeRequestCount.getD 0
  let open_sessions_count := metrics.openSessionsCount.getD 0
  String.intercalate "\n"
    [ "# HELP app_version_info Application version information."
    , "# TYPE app_version_info gauge"
    , "app_version_info\x7bversion=\"" ++ version ++ "\", commit_hash=\"" ++
        commit_hash ++ "\", build_timestamp=\"" ++ toString build_timestamp ++ "\"\x7d 1"
    , "# HELP app_agent_status Shows if the agent is running. (1 for running, 0 for not)"
    , "# TYPE app_agent_status gauge"
    , "app_agent_status " ++ toString (agent_status_value metrics)
    , "# HELP app_active_task_count The number of active tasks."
    , "# TYPE app_active_task_count gauge"
    , "app_active_task_count " ++ toString active_task_count
    , "# HELP app_active_request_count The number of active requests."
    , "# TYPE app_active_request_count gauge"
    , "app_active_request_count " ++ toString active_request_count
    , "# HELP app_open_sessions_count The number of open sessions."
    , "# TYPE app_open_sessions_count gauge"
    , "app_open_sessions_count " ++ toString open_sessions_count ]

/-- The `minimal_metrics` fallback document of the `/metrics` handler. -/
def minimal_metrics : String :=
  String.intercalate "\n"
    [ "# HELP app_active_task_count The number of active tasks."
    , "# TYPE app_active_task_count gauge"
    , "app_active_task_count 0"
    , "# HELP app_active_request_count The number of active requests."
    , "# TYPE app_active_request_count gauge"
    , "app_active_request_count 0"
    , "# HELP app_agent_status Shows if the agent is running. (1 for running, 0 for not)"
    , "# TYPE app_agent_status gauge"
    , "app_agent_status 0" ]

/-- The `/health` handler: an HTTP status code and body, computed from
`shutdown_event.is_set()` and `healthcheck_failures['fetch']`.  It never
calls `fetch_metrics`. -/
def health (shutdown_set : Bool) (fetch_failures : Nat) : Nat × String :=
  if shutdown_set then
    (503, "Shutting down")
  else if 10 < fetch_failures then
    (503, "Too many fetch failures")
  else
    (200, "OK")

/-- The `/metrics` handler: runs `fetch_metrics`, translates its document
on success, and on any exception returns the minimal fallback with status
200.  A `noneValue` outcome (empty retry budget) makes
`convert_to_prometheus(None)` raise `AttributeError` inside the `try`, so
it too lands in the fallback branch. -/
def metricsRoute (cfg : Config) (env : FetchEnv) (st : ExpState) :
    ExpState × Nat × String :=
  let out := fetch_metrics cfg env st
  match out.result with
  | .doc d => (out.state, 200, convert_to_prometheus d)
  | .noneValue => (out.state, 200, minimal_metrics)
  | .err _ => (out.state, 200, minimal_metrics)

/-- Concrete breaker states, documents and environments used to witness
the theorems below on executable inputs. -/
def cbOpenFive : CBState :=
  { failure_threshold := 5, recovery_timeout := 30, failure_count := 5,
    last_failure_time := some 100, state := .OPEN }

def cbClosedTwo : CBState :=
  { failure_threshold := 5, recovery_timeout := 30, failure_count := 2,
    last_failure_time := some 40, state := .CLOSED }

def cbHalfOpenTwo : CBState :=
  { failure_threshold := 5, recovery_timeout := 30, failure_count := 2,
    last_failure_time := some 40, state := .HALF_OPEN }

/-- An environment in which every upstream attempt fails and the shutdown
latch never fires. -/
def envAllFail : FetchEnv := ⟨100, fun _ => ⟨false, 100, Except.error (), false⟩⟩

/-- An environment in which the shutdown latch is set throughout. -/
def envShutdown : FetchEnv := ⟨100, fun _ => ⟨true, 100, Except.error (), false⟩⟩

def stWithStaleCache : ExpState :=
  { cb := CBState.init, agent_draining := true,
    last_successful_metrics := some MetricsDoc.empty, last_metrics_time := some 0,
    fetch_failures := 0 }

def stWithFreshCache : ExpState :=
  { cb := CBState.init, agent_draining := false,
    last_successful_metrics := some MetricsDoc.empty, last_metrics_time := some 90,
    fetch_failures := 0 }

def stNoCacheDraining : ExpState :=
  { cb := CBState.init, agent_draining := true, last_successful_metrics := none,
    last_metrics_time := none, fetch_failures := 0 }

def runningDoc : MetricsDoc :=
  { MetricsDoc.empty with agentStatus := some "RUNNING" }

lemma cbInv_init : CBInv CBState.init := by
  intro h
  simp [CBState.init] at h

lemma cbInv_runOp {α : Type} (s : CBState) (now : Nat) (op : Except Unit α) :
    s.state ≠ .OPEN → CBInv (s.runOp now op).1 := by
  intro hs
  cases op with
  | ok a =>
      by_cases h : s.state = .HALF_OPEN <;>
        simp [CBState.runOp, CBInv, h, hs]
  | error e =>
      by_cases h : s.failure_threshold ≤ s.failure_count + 1 <;>
        simp [CBState.runOp, CBInv, h, hs]

/-- The invariant is preserved by every call. -/
lemma cbInv_call {α : Type} (s : CBState) (now : Nat) (op : Except Unit α)
    (hinv : CBInv s) : CBInv (s.call now op).1 := by
  cases hst : s.state with
  | OPEN =>
      obtain ⟨hth, hlt⟩ := hinv hst
      cases hltv : s.last_failure_time with
      | none => simp [hltv] at hlt
      | some t =>
          by_cases hel : s.recovery_timeout < now - t
          · have : ({ s with state := CBStatus.HALF_OPEN } : CBState).state ≠ .OPEN := by
              simp
            simpa [CBState.call, hst, hltv, hel] using
              cbInv_runOp { s with state := CBStatus.HALF_OPEN } now op this
          · have heq : (s.call now op).1 = s := by
              simp [CBState.call, hst, hltv, hel]
            rw [heq]
            exact hinv
  | CLOSED =>
      have : s.state ≠ .OPEN := by simp [hst]
      simpa [CBState.call, hst] using cbInv_runOp s now op this
  | HALF_OPEN =>
      have : s.state ≠ .OPEN := by simp [hst]
      simpa [CBState.call, hst] using cbInv_runOp s now op this

lemma errOfCB_isFetchFailure {α : Type} (r : CBResult α) :
    (errOfCB r).isFetchFailure := by
  cases r <;> trivial

lemma runOp_error_snd {α : Type} (s : CBState) (now : Nat) :
    (CBState.runOp s now (Except.error () : Except Unit α)).2.1 = CBResult.opError := by
  simp only [CBState.runOp]
  split <;> rfl

lemma cb_call_error_ne_ok {α : Type} (s : CBState) (now : Nat) (d : α) :
    (s.call now (Except.error () : Except Unit α)).2.1 ≠ CBResult.ok d := by
  cases hst : s.state with
  | OPEN =>
      cases hlt : s.last_failure_time with
      | none => simp [CBState.call, hst, hlt]
      | some t =>
          by_cases hel : s.recovery_timeout < now - t <;>
            simp [CBState.call, hst, hlt, hel, runOp_error_snd]
  | CLOSED => simp [CBState.call, hst, runOp_error_snd]
  | HALF_OPEN => simp [CBState.call, hst, runOp_error_snd]


lemma fetchLoop_shutdown (rd : Nat) (env : Nat → AttemptEnv) (i r : Nat) (st : ExpState)
    (h1 : (env i).shutdownAtStart = true) :
    fetchLoop rd env i (r + 1) st = ⟨st, .err .shutdown, 0, 0, []⟩ := by
  rw [fetchLoop.eq_2, h1]
  simp

lemma fetchLoop_success (rd : Nat) (env : Nat → AttemptEnv) (i r : Nat) (st : ExpState)
    (cb1 : CBState) (d : MetricsDoc) (inv : Nat)
    (h1 : (env i).shutdownAtStart = false)
    (hcall : st.cb.call (env i).now (env i).upstream = (cb1, CBResult.ok d, inv)) :
    fetchLoop rd env i (r + 1) st =
      ⟨{ st with cb := cb1, last_successful_metrics := some d,
                 last_metrics_time := some (env i).now, fetch_failures := 0 },
        .doc d, 1, inv, []⟩ := by
  rw [fetchLoop.eq_2, h1, hcall]
  simp

lemma fetchLoop_fail_last (rd : Nat) (env : Nat → AttemptEnv) (i : Nat) (st : ExpState)
    (cb1 : CBState) (cr : CBResult MetricsDoc) (inv : Nat)
    (h1 : (env i).shutdownAtStart = false)
    (hcall : st.cb.call (env i).now (env i).upstream = (cb1, cr, inv))
    (hcr : ∀ d, cr ≠ CBResult.ok d) :
    fetchLoop rd env i 1 st =
      (match st.last_successful_metrics with
       | some cached =>
           if 3 ≤ st.fetch_failures + 1 then
             ⟨{ st with cb := cb1, fetch_failures := st.fetch_failures + 1 },
               FetchResult.doc cached, 1, inv, []⟩
           else
             ⟨{ st with cb := cb1, fetch_failures := st.fetch_failures + 1 },
               FetchResult.err (errOfCB cr), 1, inv, []⟩
       | none =>
           ⟨{ st with cb := cb1, fetch_failures := st.fetch_failures + 1 },
             FetchResult.err (errOfCB cr), 1, inv, []⟩) := by
  have h01 : (1 : Nat) = Nat.succ 0 := rfl
  cases cr with
  | ok d => exact absurd rfl (hcr d)
  | circuitOpen =>
      rw [h01, fetchLoop.eq_2, h1, hcall]
      rcases st.last_successful_metrics with _ | c <;> simp
  | opError =>
      rw [h01, fetchLoop.eq_2, h1, hcall]
      rcases st.last_successful_metrics with _ | c <;> simp
  | crash =>
      rw [h01, fetchLoop.eq_2, h1, hcall]
      rcases st.last_successful_metrics with _ | c <;> simp

lemma fetchLoop_fail_step (rd : Nat) (env : Nat → AttemptEnv) (i r : Nat)
    (st st2 : ExpState)
    (cb1 : CBState) (cr : CBResult MetricsDoc) (inv : Nat)
    (h1 : (env i).shutdownAtStart = false)
    (h2 : (env i).shutdownDuringWait = false)
    (hcall : st.cb.call (env i).now (env i).upstream = (cb1, cr, inv))
    (hcr : ∀ d, cr ≠ CBResult.ok d)
    (hst2 : st2 = { st with cb := cb1, fetch_failures := st.fetch_failures + 1 }) :
    fetchLoop rd env i (r + 2) st =
      ⟨(fetchLoop rd env (i + 1) (r + 1) st2).state,
       (fetchLoop rd env (i + 1) (r + 1) st2).result,
       (fetchLoop rd env (i + 1) (r + 1) st2).cbAttempts + 1,
       (fetchLoop rd env (i + 1) (r + 1) st2).opInvocations + inv,
       rd :: (fetchLoop rd env (i + 1) (r + 1) st2).waits⟩ := by
  have h2' : (r + 2 : Nat) = Nat.succ (r + 1) := rfl
  cases cr with
  | ok d => exact absurd rfl (hcr d)
  | circuitOpen =>
      rw [h2', fetchLoop.eq_2, h1, hcall, hst2]
      simp [h2]
  | opError =>
      rw [h2', fetchLoop.eq_2, h1, hcall, hst2]
      simp [h2]
  | crash =>
      rw [h2', fetchLoop.eq_2, h1, hcall, hst2]
      simp [h2]

lemma fetchLoop_all_fail (rd : Nat) (env : Nat → AttemptEnv)
    (hup : ∀ j, (env j).upstream = Except.error ())
    (hs1 : ∀ j, (env j).shutdownAtStart = false)
    (hs2 : ∀ j, (env j).shutdownDuringWait = false)
    (r : Nat) :
    ∀ (i : Nat) (st : ExpState),
      (fetchLoop rd env i (r + 1) st).cbAttempts = r + 1 ∧
      (fetchLoop rd env i (r + 1) st).waits = List.replicate r rd ∧
      (fetchLoop rd env i (r + 1) st).state.agent_draining = st.agent_draining ∧
      (fetchLoop rd env i (r + 1) st).state.last_successful_metrics =
        st.last_successful_metrics ∧
      (fetchLoop rd env i (r + 1) st).state.last_metrics_time = st.last_metrics_time ∧
      (fetchLoop rd env i (r + 1) st).state.fetch_failures =
        st.fetch_failures + (r + 1) ∧
      (∀ c, st.last_successful_metrics = some c →
        3 ≤ st.fetch_failures + (r + 1) →
        (fetchLoop rd env i (r + 1) st).result = .doc c) ∧
      ((st.last_successful_metrics = none ∨ st.fetch_failures + (r + 1) < 3) →
        ∃ e, (fetchLoop rd env i (r + 1) st).result = .err e ∧ e.isFetchFailure) := by
  induction r with
  | zero =>
      intro i st
      rcases hcall : st.cb.call (env i).now (env i).upstream with ⟨cb1, cr, inv⟩
      have hcr : ∀ d, cr ≠ CBResult.ok d := by
        intro d hd
        have hne := cb_call_error_ne_ok st.cb (env i).now d
        rw [← hup i] at hne
        rw [hcall] at hne
        exact hne (by rw [hd])
      simp only [Nat.zero_add]
      rw [fetchLoop_fail_last rd env i st cb1 cr inv (hs1 i) hcall hcr]
      rcases hls : st.last_successful_metrics with _ | c
      · simp only [hls]
        refine ⟨by simp, by simp, by simp, by simp, by simp, by simp, ?_, ?_⟩
        · intro c' hc' _
          exact absurd hc' (by simp)
        · intro _
          exact ⟨errOfCB cr, rfl, errOfCB_isFetchFailure cr⟩
      · simp only [hls]
        by_cases h3 : 3 ≤ st.fetch_failures + 1
        · simp only [if_pos h3]
          refine ⟨by simp, by simp, by simp, by simp, by simp, by simp, ?_, ?_⟩
          · intro c' hc' _
            cases hc'
            rfl
          · intro hcase
            rcases hcase with h | h
            · cases h
            · omega
        · simp only [if_neg h3]
          refine ⟨by simp, by simp, by simp, by simp, by simp, by simp, ?_, ?_⟩
          · intro c' hc' h3'
            exact absurd h3' h3
          · intro _
            exact ⟨errOfCB cr, rfl, errOfCB_isFetchFailure cr⟩
  | succ r ih =>
      intro i st
      rcases hcall : st.cb.call (env i).now (env i).upstream with ⟨cb1, cr, inv⟩
      have hcr : ∀ d, cr ≠ CBResult.ok d := by
        intro d hd
        have hne := cb_call_error_ne_ok st.cb (env i).now d
        rw [← hup i] at hne
        rw [hcall] at hne
        exact hne (by rw [hd])
      rw [fetchLoop_fail_step rd env i r st
            { st with cb := cb1, fetch_failures := st.fetch_failures + 1 }
            cb1 cr inv (hs1 i) (hs2 i) hcall hcr rfl]
      obtain ⟨ha, hw, hd, hl, hm, hf, hr1, hr2⟩ :=
        ih (i + 1) { st with cb := cb1, fetch_failures := st.fetch_failures + 1 }
      simp only at ha hw hd hl hm hf hr1 hr2
      refine ⟨by simp [ha], by simp [hw, List.replicate_succ], by simp [hd],
        by simp [hl], by simp [hm], ?_, ?_, ?_⟩
      · simp [hf]
        omega
      · intro c hc h3
        have h3' : 3 ≤ st.fetch_failures + 1 + (r + 1) := by omega
        simpa using hr1 c hc h3'
      · intro hcase
        have hcase' : st.last_successful_metrics = none ∨
            st.fetch_failures + 1 + (r + 1) < 3 := by
          rcases hcase with h | h
          · exact Or.inl h
          · right
            omega
        obtain ⟨e, he, hfe⟩ := hr2 hcase'
        exact ⟨e, by simpa using he, hfe⟩

/-- If the cache test fails (no cached document, no timestamp, or the
entry is at least `cacheTTL` old), `fetch_metrics` runs the retry loop. -/
lemma fetch_metrics_not_fresh (cfg : Config) (env : FetchEnv) (st : ExpState)
    (h : ∀ c t, st.last_successful_metrics = some c → st.last_metrics_time = some t →
      cfg.metrics_cache_ttl ≤ env.now0 - t) :
    fetch_metrics cfg env st =
      fetchLoop (effRetryDelay cfg st) env.attempt 0 (effMaxAttempts cfg st) st := by
  rcases hls : st.last_successful_metrics with _ | c
  · rcases hlt : st.last_metrics_time with _ | t <;>
      simp [fetch_metrics, hls, hlt]
  · rcases hlt : st.last_metrics_time with _ | t
    · simp [fetch_metrics, hls, hlt]
    · have hst := h c t hls hlt
      simp [fetch_metrics, hls, hlt, Nat.not_lt.mpr hst]

/-- If a cache entry exists and is fresh, `fetch_metrics` returns it
without touching anything. -/
lemma fetch_metrics_fresh (cfg : Config) (env : FetchEnv) (st : ExpState)
    (c : MetricsDoc) (t : Nat)
    (hc : st.last_successful_metrics = some c)
    (ht : st.last_metrics_time = some t)
    (hfresh : env.now0 - t < cfg.metrics_cache_ttl) :
    fetch_metrics cfg env st = ⟨st, .doc c, 0, 0, []⟩ := by
  simp [fetch_metrics, hc, ht, hfresh]

/-- As long as the shutdown latch is clear at the head of the first
iteration, the loop performs at least one circuit-breaker attempt. -/
lemma fetchLoop_attempts_pos (rd : Nat) (env : Nat → AttemptEnv) (i r : Nat)
    (st : ExpState) (h1 : (env i).shutdownAtStart = false) :
    1 ≤ (fetchLoop rd env i (r + 1) st).cbAttempts := by
  rw [fetchLoop.eq_2, h1]
  simp only [Bool.false_eq_true, if_false]
  rcases hcall : st.cb.call (env i).now (env i).upstream with ⟨cb1, cr, inv⟩
  cases cr with
  | ok d => simp
  | circuitOpen =>
      cases r with
      | zero =>
          rcases st.last_successful_metrics with _ | c
          · simp
          · by_cases h3 : 3 ≤ st.fetch_failures + 1 <;> simp [h3]
      | succ r' =>
          by_cases hw : (env i).shutdownDuringWait = true <;> simp [hw]
  | opError =>
      cases r with
      | zero =>
          rcases st.last_successful_metrics with _ | c
          · simp
          · by_cases h3 : 3 ≤ st.fetch_failures + 1 <;> simp [h3]
      | succ r' =>
          by_cases hw : (env i).shutdownDuringWait = true <;> simp [hw]
  | crash =>
      cases r with
      | zero =>
          rcases st.last_successful_metrics with _ | c
          · simp
          · by_cases h3 : 3 ≤ st.fetch_failures + 1 <;> simp [h3]
      | succ r' =>
          by_cases hw : (env i).shutdownDuringWait = true <;> simp [hw]

/-- C1: a call on an `Open` breaker whose recovery timeout has not elapsed
fails with the circuit-open error, leaves the state untouched and never
invokes the wrapped operation; once the timeout has elapsed the operation
is invoked exactly once in the same call, a success closes the breaker and
zeroes the failure count, and a failure re-opens it, stamps the failure
time, increments the count and re-raises.  The hypothesis
`failure_threshold ≤ failure_count` is the reachability invariant `CBInv`
of every `Open` breaker. -/
theorem C1_open_breaker_gate (s : CBState) (t now : Nat)
    (op : Except Unit MetricsDoc)
    (hopen : s.state = .OPEN)
    (ht : s.last_failure_time = some t)
    (hth : s.failure_threshold ≤ s.failure_count) :
    (now - t ≤ s.recovery_timeout → s.call now op = (s, .circuitOpen, 0)) ∧
    (s.recovery_timeout < now - t →
      (s.call now op).2.2 = 1 ∧
      (∀ d, op = .ok d →
        (s.call now op).1.state = .CLOSED ∧
        (s.call now op).1.failure_count = 0 ∧
        (s.call now op).2.1 = .ok d) ∧
      (op = .error () →
        (s.call now op).1.state = .OPEN ∧
        (s.call now op).1.failure_count = s.failure_count + 1 ∧
        (s.call now op).1.last_failure_time = some now ∧
        (s.call now op).2.1 = .opError)) := by
  constructor
  · intro hle
    simp [CBState.call, hopen, ht, Nat.not_lt.mpr hle]
  · intro hel
    refine ⟨?_, ?_, ?_⟩
    · cases op with
      | ok d => simp [CBState.call, hopen, ht, hel, CBState.runOp]
      | error e =>
          by_cases hb : s.failure_threshold ≤ s.failure_count + 1 <;>
            simp [CBState.call, hopen, ht, hel, CBState.runOp, hb]
    · intro d hd
      subst hd
      simp [CBState.call, hopen, ht, hel, CBState.runOp]
    · intro he
      subst he
      have hb : s.failure_threshold ≤ s.failure_count + 1 :=
        le_trans hth (Nat.le_succ _)
      simp [CBState.call, hopen, ht, hel, CBState.runOp, hb]

theorem C1_open_breaker_gate_witness :
    (cbOpenFive.call 110 (Except.error () : Except Unit MetricsDoc) =
      (cbOpenFive, .circuitOpen, 0)) ∧
    (cbOpenFive.call 131 (Except.error () : Except Unit MetricsDoc)).1.state = .OPEN ∧
    (cbOpenFive.call 131 (Except.error () : Except Unit MetricsDoc)).2.2 = 1 ∧
    (cbOpenFive.call 131 (Except.ok MetricsDoc.empty)).1.state = .CLOSED ∧
    (cbOpenFive.call 131 (Except.ok MetricsDoc.empty)).1.failure_count = 0 := by
  refine ⟨?_, ?_, ?_, ?_, ?_⟩
  · exact (C1_open_breaker_gate cbOpenFive 100 110 _ rfl rfl (by decide)).1 (by decide)
  · exact (((C1_open_breaker_gate cbOpenFive 100 131 _ rfl rfl (by decide)).2
      (by decide)).2.2 rfl).1
  · exact ((C1_open_breaker_gate cbOpenFive 100 131
      (Except.error () : Except Unit MetricsDoc) rfl rfl (by decide)).2 (by decide)).1
  · exact ((((C1_open_breaker_gate cbOpenFive 100 131 _ rfl rfl (by decide)).2
      (by decide)).2.1) MetricsDoc.empty rfl).1
  · exact ((((C1_open_breaker_gate cbOpenFive 100 131 _ rfl rfl (by decide)).2
      (by decide)).2.1) MetricsDoc.empty rfl).2.1

/-- C3 counterexample: the code resets the failure count only on a success
in the `HALF_OPEN` state.  A `Closed` breaker with two recorded failures
keeps `failure_count = 2` after a successful call, refuting "the counter
is reset to 0 on any success". -/
theorem C3_counterexample :
    (cbClosedTwo.call 50 (Except.ok MetricsDoc.empty)).2.1 =
      CBResult.ok MetricsDoc.empty ∧
    (cbClosedTwo.call 50 (Except.ok MetricsDoc.empty)).1.failure_count = 2 := by
  exact ⟨rfl, rfl⟩

/-- C3 (amended): after a successful call the failure count is reset to 0
exactly when the operation ran in the `HalfOpen` state — either because
the breaker was already `HalfOpen` or because an `Open` breaker
half-opened in the same call; a success while `Closed` leaves the counter
unchanged. -/
theorem C3_success_reset_only_half_open (s : CBState) (now : Nat) (d : MetricsDoc) :
    (s.state = .HALF_OPEN →
      (s.call now (Except.ok d)).1.failure_count = 0 ∧
      (s.call now (Except.ok d)).1.state = .CLOSED) ∧
    (s.state = .CLOSED →
      (s.call now (Except.ok d)).1.failure_count = s.failure_count ∧
      (s.call now (Except.ok d)).1.state = .CLOSED) ∧
    (∀ t, s.state = .OPEN → s.last_failure_time = some t →
      s.recovery_timeout < now - t →
      (s.call now (Except.ok d)).1.failure_count = 0 ∧
      (s.call now (Except.ok d)).1.state = .CLOSED) := by
  refine ⟨?_, ?_, ?_⟩
  · intro h
    simp [CBState.call, h, CBState.runOp]
  · intro h
    simp [CBState.call, h, CBState.runOp]
  · intro t h ht hel
    simp [CBState.call, h, ht, hel, CBState.runOp]

theorem C3_success_reset_only_half_open_witness :
    (cbHalfOpenTwo.call 50 (Except.ok MetricsDoc.empty)).1.failure_count = 0 ∧
    (cbClosedTwo.call 50 (Except.ok MetricsDoc.empty)).1.failure_count = 2 := by
  constructor
  · exact ((C3_success_reset_only_half_open cbHalfOpenTwo 50 MetricsDoc.empty).1 rfl).1
  · exact ((C3_success_reset_only_half_open cbClosedTwo 50 MetricsDoc.empty).2.1 rfl).1

/-- C2: `/metrics` always answers HTTP 200; the body is the translated
document when `fetch_metrics` returned one, and otherwise the minimal
fallback document, whose text reports zero active tasks, zero active
requests and agent status 0. -/
theorem C2_metrics_always_200 (cfg : Config) (env : FetchEnv) (st : ExpState) :
    (metricsRoute cfg env st).2.1 = 200 ∧
    (metricsRoute cfg env st).2.2 =
      (match (fetch_metrics cfg env st).result with
       | .doc d => convert_to_prometheus d
       | _ => minimal_metrics) := by
  constructor
  · rcases hres : (fetch_metrics cfg env st).result with d | _ | e <;>
      simp [metricsRoute, hres]
  · rcases hres : (fetch_metrics cfg env st).result with d | _ | e <;>
      simp [metricsRoute, hres]

/-- C5: when a cache entry exists and is younger than `cacheTTL`, the
cached payload is returned, the upstream is never invoked, no retry
attempt is made, and the whole shared state — breaker, cache entry and
failure counter — is returned unchanged. -/
theorem C5_fresh_cache_short_circuit (cfg : Config) (env : FetchEnv) (st : ExpState)
    (c : MetricsDoc) (t : Nat)
    (hc : st.last_successful_metrics = some c)
    (ht : st.last_metrics_time = some t)
    (hfresh : env.now0 - t < cfg.metrics_cache_ttl) :
    fetch_metrics cfg env st =
      { state := st, result := .doc c, cbAttempts := 0,
        opInvocations := 0, waits := [] } :=
  fetch_metrics_fresh cfg env st c t hc ht hfresh

theorem C5_fresh_cache_short_circuit_witness :
    fetch_metrics Config.default envAllFail stWithFreshCache =
      { state := stWithFreshCache, result := .doc MetricsDoc.empty,
        cbAttempts := 0, opInvocations := 0, waits := [] } :=
  C5_fresh_cache_short_circuit Config.default envAllFail stWithFreshCache
    MetricsDoc.empty 90 rfl rfl (by decide)

/-- C10: the fresh-cache check precedes the shutdown-latch check: with the
latch set throughout but a fresh cache entry present, `fetch_metrics`
returns the cached document and raises nothing; the latch is only
consulted at the top of a loop iteration — with no cached document the
same environment makes the first iteration abort with the shutdown
error. -/
theorem C10_fresh_cache_beats_shutdown (cfg : Config) (env : FetchEnv) (st : ExpState)
    (c : MetricsDoc) (t : Nat)
    (hc : st.last_successful_metrics = some c)
    (ht : st.last_metrics_time = some t)
    (hfresh : env.now0 - t < cfg.metrics_cache_ttl)
    (hshut : ∀ j, (env.attempt j).shutdownAtStart = true) :
    (fetch_metrics cfg env st).result = .doc c ∧
    (∀ e, (fetch_metrics cfg env st).result ≠ FetchResult.err e) ∧
    (∀ st' : ExpState, st'.last_successful_metrics = none →
      0 < effMaxAttempts cfg st' →
      (fetch_metrics cfg env st').result = FetchResult.err .shutdown) := by
  rw [fetch_metrics_fresh cfg env st c t hc ht hfresh]
  refine ⟨rfl, by simp, ?_⟩
  intro st' h0 hpos
  have hnf : fetch_metrics cfg env st' =
      fetchLoop (effRetryDelay cfg st') env.attempt 0 (effMaxAttempts cfg st') st' := by
    apply fetch_metrics_not_fresh
    intro c' t' hc' ht'
    rw [h0] at hc'
    cases hc'
  rw [hnf]
  obtain ⟨m, hm⟩ : ∃ m, effMaxAttempts cfg st' = m + 1 :=
    ⟨effMaxAttempts cfg st' - 1, by omega⟩
  rw [hm, fetchLoop_shutdown _ _ _ _ _ (hshut 0)]

theorem C10_fresh_cache_beats_shutdown_witness :
    (fetch_metrics Config.default envShutdown stWithFreshCache).result =
      .doc MetricsDoc.empty ∧
    (fetch_metrics Config.default envShutdown stNoCacheDraining).result =
      FetchResult.err .shutdown := by
  have h := C10_fresh_cache_beats_shutdown Config.default envShutdown
    stWithFreshCache MetricsDoc.empty 90 rfl rfl (by decide) (fun j => rfl)
  exact ⟨h.1, h.2.2 stNoCacheDraining rfl (by decide)⟩

/-- C6: with the cache absent or expired, every upstream attempt failing
and the shutdown latch never firing, a draining exporter runs exactly 3
retry-loop attempts separated by two 1-second waits; a non-draining
exporter runs `MAX_RETRY_ATTEMPTS` attempts separated by
`RETRY_DELAY`-second waits, whose un-overridden defaults are 30 and 5. -/
theorem C6_drain_retry_budget (cfg : Config) (env : FetchEnv) (st : ExpState)
    (hstale : ∀ c t, st.last_successful_metrics = some c →
      st.last_metrics_time = some t → cfg.metrics_cache_ttl ≤ env.now0 - t)
    (hup : ∀ j, (env.attempt j).upstream = Except.error ())
    (hs1 : ∀ j, (env.attempt j).shutdownAtStart = false)
    (hs2 : ∀ j, (env.attempt j).shutdownDuringWait = false) :
    (st.agent_draining = true →
      (fetch_metrics cfg env st).cbAttempts = 3 ∧
      (fetch_metrics cfg env st).waits = List.replicate 2 1) ∧
    (st.agent_draining = false → 0 < cfg.MAX_RETRY_ATTEMPTS →
      (fetch_metrics cfg env st).cbAttempts = cfg.MAX_RETRY_ATTEMPTS ∧
      (fetch_metrics cfg env st).waits =
        List.replicate (cfg.MAX_RETRY_ATTEMPTS - 1) cfg.RETRY_DELAY) ∧
    Config.default.MAX_RETRY_ATTEMPTS = 30 ∧ Config.default.RETRY_DELAY = 5 := by
  rw [fetch_metrics_not_fresh cfg env st hstale]
  refine ⟨?_, ?_, rfl, rfl⟩
  · intro hd
    have hmax : effMaxAttempts cfg st = 2 + 1 := by simp [effMaxAttempts, hd]
    have hdel : effRetryDelay cfg st = 1 := by simp [effRetryDelay, hd]
    rw [hmax, hdel]
    obtain ⟨ha, hw, -, -, -, -, -, -⟩ :=
      fetchLoop_all_fail 1 env.attempt hup hs1 hs2 2 0 st
    exact ⟨ha, hw⟩
  · intro hd hpos
    have hmax : effMaxAttempts cfg st = cfg.MAX_RETRY_ATTEMPTS := by
      simp [effMaxAttempts, hd]
    have hdel : effRetryDelay cfg st = cfg.RETRY_DELAY := by
      simp [effRetryDelay, hd]
    obtain ⟨m, hm⟩ : ∃ m, cfg.MAX_RETRY_ATTEMPTS = m + 1 :=
      ⟨cfg.MAX_RETRY_ATTEMPTS - 1, by omega⟩
    rw [hmax, hdel, hm]
    obtain ⟨ha, hw, -, -, -, -, -, -⟩ :=
      fetchLoop_all_fail cfg.RETRY_DELAY env.attempt hup hs1 hs2 m 0 st
    exact ⟨ha, hw⟩

theorem C6_drain_retry_budget_witness :
    (fetch_metrics Config.default envAllFail stNoCacheDraining).cbAttempts = 3 ∧
    (fetch_metrics Config.default envAllFail stNoCacheDraining).waits =
      List.replicate 2 1 := by
  exact (C6_drain_retry_budget Config.default envAllFail stNoCacheDraining
    (by intro c t hc ht; simp [stNoCacheDraining] at hc)
    (fun j => rfl) (fun j => rfl) (fun j => rfl)).1 rfl

/-- C4: when the retry budget is exhausted with every attempt failing and
no shutdown abort, `fetch_metrics` returns the cached document exactly
when one exists and the `fetch` failure counter (after this call's
increments) has reached 3; otherwise it re-raises the last attempt's
fetch failure. -/
theorem C4_exhausted_retries_fallback (cfg : Config) (env : FetchEnv) (st : ExpState)
    (hstale : ∀ c t, st.last_successful_metrics = some c →
      st.last_metrics_time = some t → cfg.metrics_cache_ttl ≤ env.now0 - t)
    (hup : ∀ j, (env.attempt j).upstream = Except.error ())
    (hs1 : ∀ j, (env.attempt j).shutdownAtStart = false)
    (hs2 : ∀ j, (env.attempt j).shutdownDuringWait = false)
    (hpos : 0 < effMaxAttempts cfg st) :
    (∀ c, st.last_successful_metrics = some c →
      3 ≤ st.fetch_failures + effMaxAttempts cfg st →
      (fetch_metrics cfg env st).result = .doc c) ∧
    ((st.last_successful_metrics = none ∨
        st.fetch_failures + effMaxAttempts cfg st < 3) →
      ∃ e, (fetch_metrics cfg env st).result = FetchResult.err e ∧
        e.isFetchFailure) := by
  rw [fetch_metrics_not_fresh cfg env st hstale]
  obtain ⟨m, hm⟩ : ∃ m, effMaxAttempts cfg st = m + 1 :=
    ⟨effMaxAttempts cfg st - 1, by omega⟩
  rw [hm]
  obtain ⟨-, -, -, -, -, -, hr1, hr2⟩ :=
    fetchLoop_all_fail (effRetryDelay cfg st) env.attempt hup hs1 hs2 m 0 st
  constructor
  · intro c hc h3
    exact hr1 c hc h3
  · intro hcase
    exact hr2 hcase

theorem C4_exhausted_retries_fallback_witness :
    (fetch_metrics Config.default envAllFail stWithStaleCache).result =
      .doc MetricsDoc.empty := by
  exact (C4_exhausted_retries_fallback Config.default envAllFail stWithStaleCache
    (by intro c t hc ht; simp [stWithStaleCache] at ht; subst ht; decide)
    (fun j => rfl) (fun j => rfl) (fun j => rfl) (by decide)).1
    MetricsDoc.empty rfl (by decide)

/-- C9: serving the stale cached document after exhausting retries leaves
the cache entry (payload and timestamp) untouched and only increments —
never resets — the failure counter; consequently a later `fetch_metrics`
call at the same or a later wall-clock instant still misses the freshness
test and performs at least one new retry-loop attempt. -/
theorem C9_stale_serve_frame (cfg : Config) (env : FetchEnv) (st : ExpState)
    (c : MetricsDoc)
    (hc : st.last_successful_metrics = some c)
    (hstale : ∀ t, st.last_metrics_time = some t →
      cfg.metrics_cache_ttl ≤ env.now0 - t)
    (hup : ∀ j, (env.attempt j).upstream = Except.error ())
    (hs1 : ∀ j, (env.attempt j).shutdownAtStart = false)
    (hs2 : ∀ j, (env.attempt j).shutdownDuringWait = false)
    (hpos : 0 < effMaxAttempts cfg st)
    (h3 : 3 ≤ st.fetch_failures + effMaxAttempts cfg st) :
    (fetch_metrics cfg env st).result = .doc c ∧
    (fetch_metrics cfg env st).state.last_successful_metrics =
      st.last_successful_metrics ∧
    (fetch_metrics cfg env st).state.last_metrics_time = st.last_metrics_time ∧
    (fetch_metrics cfg env st).state.fetch_failures =
      st.fetch_failures + effMaxAttempts cfg st ∧
    (∀ env' : FetchEnv, env.now0 ≤ env'.now0 →
      (env'.attempt 0).shutdownAtStart = false →
      1 ≤ (fetch_metrics cfg env' (fetch_metrics cfg env st).state).cbAttempts) := by
  have hnf : fetch_metrics cfg env st =
      fetchLoop (effRetryDelay cfg st) env.attempt 0 (effMaxAttempts cfg st) st :=
    fetch_metrics_not_fresh cfg env st (fun c' t hc' ht => hstale t ht)
  obtain ⟨m, hm⟩ : ∃ m, effMaxAttempts cfg st = m + 1 :=
    ⟨effMaxAttempts cfg st - 1, by omega⟩
  obtain ⟨ha, hw, hd, hl, hmt, hf, hr1, hr2⟩ :=
    fetchLoop_all_fail (effRetryDelay cfg st) env.attempt hup hs1 hs2 m 0 st
  rw [hnf, hm]
  refine ⟨hr1 c hc (by omega), hl, hmt, hf, ?_⟩
  intro env' hle h0
  have hstale' : ∀ c' t,
      (fetchLoop (effRetryDelay cfg st) env.attempt 0 (m + 1) st).state.last_successful_metrics = some c' →
      (fetchLoop (effRetryDelay cfg st) env.attempt 0 (m + 1) st).state.last_metrics_time = some t →
      cfg.metrics_cache_ttl ≤ env'.now0 - t := by
    intro c' t hc' ht'
    rw [hmt] at ht'
    have hx := hstale t ht'
    omega
  rw [fetch_metrics_not_fresh cfg env' _ hstale']
  have hmax' : effMaxAttempts cfg
      ((fetchLoop (effRetryDelay cfg st) env.attempt 0 (m + 1) st).state) =
      effMaxAttempts cfg st := by
    simp [effMaxAttempts, hd]
  obtain ⟨m', hm'⟩ : ∃ m', effMaxAttempts cfg
      ((fetchLoop (effRetryDelay cfg st) env.attempt 0 (m + 1) st).state) = m' + 1 :=
    ⟨m, by rw [hmax', hm]⟩
  rw [hm']
  exact fetchLoop_attempts_pos _ env'.attempt 0 m' _ h0

theorem C9_stale_serve_frame_witness :
    (fetch_metrics Config.default envAllFail stWithStaleCache).result =
      .doc MetricsDoc.empty ∧
    (fetch_metrics Config.default envAllFail stWithStaleCache).state.last_metrics_time =
      some 0 ∧
    (fetch_metrics Config.default envAllFail stWithStaleCache).state.fetch_failures = 3 ∧
    1 ≤ (fetch_metrics Config.default envAllFail
      (fetch_metrics Config.default envAllFail stWithStaleCache).state).cbAttempts := by
  have h := C9_stale_serve_frame Config.default envAllFail stWithStaleCache
    MetricsDoc.empty rfl
    (by intro t ht; simp [stWithStaleCache] at ht; subst ht; decide)
    (fun j => rfl) (fun j => rfl) (fun j => rfl) (by decide) (by decide)
  exact ⟨h.1, h.2.2.1, h.2.2.2.1, h.2.2.2.2 envAllFail (le_refl _) rfl⟩

/-- C7: the translator resolves every missing field to its default and is
total; `app_agent_status` is 1 exactly when the raw `agentStatus` field is
the string `RUNNING` (0 for any other or absent value), and translating
the empty document produces the full five-metric text with
`version="unknown"`, `commit_hash="unknown"`, `build_timestamp="0"`,
status 0 and all counts 0. -/
theorem C7_translator_defaults :
    (∀ m : MetricsDoc,
      (agent_status_value m = 1 ↔ m.agentStatus = some "RUNNING") ∧
      (m.agentStatus ≠ some "RUNNING" → agent_status_value m = 0)) ∧
    convert_to_prometheus MetricsDoc.empty =
      String.intercalate "\n"
        [ "# HELP app_version_info Application version information."
        , "# TYPE app_version_info gauge"
        , "app_version_info\x7bversion=\"unknown\", commit_hash=\"unknown\", build_timestamp=\"0\"\x7d 1"
        , "# HELP app_agent_status Shows if the agent is running. (1 for running, 0 for not)"
        , "# TYPE app_agent_status gauge"
        , "app_agent_status 0"
        , "# HELP app_active_task_count The number of active tasks."
        , "# TYPE app_active_task_count gauge"
        , "app_active_task_count 0"
        , "# HELP app_active_request_count The number of active requests."
        , "# TYPE app_active_request_count gauge"
        , "app_active_request_count 0"
        , "# HELP app_open_sessions_count The number of open sessions."
        , "# TYPE app_open_sessions_count gauge"
        , "app_open_sessions_count 0" ] := by
  constructor
  · intro m
    rcases hs : m.agentStatus with _ | s
    · simp [agent_status_value, hs]
    · by_cases hr : s = "RUNNING" <;> simp [agent_status_value, hs, hr]
  · rfl

theorem C7_translator_defaults_witness :
    agent_status_value runningDoc = 1 ∧ agent_status_value MetricsDoc.empty = 0 := by
  constructor
  · exact ((C7_translator_defaults.1 runningDoc).1).mpr rfl
  · exact (C7_translator_defaults.1 MetricsDoc.empty).2 (by simp [MetricsDoc.empty])

/-- C8: `/health` answers 503 "Shutting down" whenever the shutdown latch
is set — for every counter value, so the latch check precedes the counter
check; with the latch clear it answers 503 "Too many fetch failures"
exactly when the counter exceeds 10, else 200 "OK".  `health` reads only
these two values; it never invokes the fetcher. -/
theorem C8_health_thresholds (sd : Bool) (n : Nat) :
    (sd = true → health sd n = (503, "Shutting down")) ∧
    (sd = false → 10 < n → health sd n = (503, "Too many fetch failures")) ∧
    (sd = false → n ≤ 10 → health sd n = (200, "OK")) := by
  refine ⟨?_, ?_, ?_⟩
  · intro h
    simp [health, h]
  · intro h hn
    simp [health, h, hn]
  · intro h hn
    simp [health, h, Nat.not_lt.mpr hn]

theorem C8_health_thresholds_witness :
    health true 11 = (503, "Shutting down") ∧
    health false 11 = (503, "Too many fetch failures") ∧
    health false 10 = (200, "OK") := by
  refine ⟨(C8_health_thresholds true 11).1 rfl,
    (C8_health_thresholds false 11).2.1 rfl (by decide),
    (C8_health_thresholds false 10).2.2 rfl (by decide)⟩
